import Mathlib

/-!
Verification of the sandboxed agent execution subsystem of the
bomberman-of-the-hill repository.

The definitions below are a shallow embedding of the Rust source:

* `crates/bomber_lib/src/world.rs` — the wire data types (`Direction`,
  `Tile`, `Object`, `PowerUp`, `Ticks`, `TileOffset`).
* `crates/bomber_lib/src/lib.rs` — the `Action` enum.
* `crates/bomber_lib/src/wasm_helpers.rs` — the raw `u32` conversions.
* `crates/bomber_macro/src/wasm_export.rs` — the guest-side shim.
* `crates/bomber_macro/src/wasm_wrap.rs` — the host-side wrapper.
* `crates/bomber_game/src/player_behaviour.rs` — spawn / turn / respawn
  systems.
* `crates/bomber_game/src/player_hotswap.rs` — handle lifecycle and live
  reload.

Machine integers (`u32`, `u64`, `usize`) are modelled as `Nat`, with
explicit `% 2 ^ 32` (resp. `2 ^ 64`) wherever the encoding depends on the
width; `i32` is modelled as `Int`. Rust panics (`expect`, `unwrap`) are
modelled as `Option.none` results of the embedded function.
-/

namespace Bomberman

/-! ## Wire data types (bomber_lib/src/world.rs and lib.rs) -/

/-- Embedding of `enum Direction` with its source declaration order
(`West`, `North`, `East`, `South`). -/
inductive Direction where
  | West
  | North
  | East
  | South
deriving DecidableEq, Repr

/-- Embedding of `enum Tile` with its source declaration order
(`Wall`, `Floor`, `Hill`). -/
inductive Tile where
  | Wall
  | Floor
  | Hill
deriving DecidableEq, Repr

/-- Embedding of `enum PowerUp` (`BombRange`, `SimultaneousBombs`,
`VisionRange`). -/
inductive PowerUp where
  | BombRange
  | SimultaneousBombs
  | VisionRange
deriving DecidableEq, Repr

/-- Embedding of `struct Ticks(pub u32)`. -/
structure Ticks where
  val : Nat
deriving DecidableEq, Repr

/-- Embedding of `enum Object`: a ticking bomb, a power-up, or a crate. -/
inductive Object where
  | Bomb (fuse_remaining : Ticks) (range : Nat)
  | PowerUp (p : PowerUp)
  | Crate
deriving DecidableEq, Repr

/-- Embedding of `struct TileOffset(pub i32, pub i32)`. -/
structure TileOffset where
  x : Int
  y : Int
deriving DecidableEq, Repr

/-- Embedding of `enum Action` from `bomber_lib/src/lib.rs`, with its
source declaration order (`Move`, `StayStill`, `DropBomb`,
`DropBombAndMove`). -/
inductive Action where
  | Move (d : Direction)
  | StayStill
  | DropBomb
  | DropBombAndMove (d : Direction)
deriving DecidableEq, Repr

/-- Embedding of `TileOffset::taxicab_distance`:
`(self.0.abs() + self.1.abs()) as u32`. -/
def TileOffset.taxicab_distance (o : TileOffset) : Nat :=
  o.x.natAbs + o.y.natAbs

/-! ## Binary contract codec (the `bincode` wire format)

The game marshals values across the sandbox boundary with
`bincode::serialize` and `bincode::deserialize` (bincode 1.x default
options): fixed-width little-endian integers, enums tagged by a `u32`
variant index in declaration order, `Option` tagged by one `u8`
(0 = None, 1 = Some), sequences length-prefixed by a `u64`, tuples and
structs by field concatenation. Bytes are modelled as `Nat` values
below 256. -/

/-- Little-endian 4-byte encoding of a `u32` value. -/
def u32le (n : Nat) : List Nat :=
  [n % 256, n / 256 % 256, n / 65536 % 256, n / 16777216 % 256]

/-- Little-endian 8-byte encoding of a `u64` value. -/
def u64le (n : Nat) : List Nat :=
  [n % 256, n / 256 % 256, n / 65536 % 256, n / 16777216 % 256,
   n / 4294967296 % 256, n / 1099511627776 % 256,
   n / 281474976710656 % 256, n / 72057594037927936 % 256]

/-- Little-endian 4-byte encoding of an `i32` value (two's complement). -/
def i32le (i : Int) : List Nat :=
  u32le (i % 4294967296).toNat

/-- Read a little-endian `u32` from the head of a byte stream, returning
the value and the remaining bytes; fails on truncated input. -/
def readU32 : List Nat → Option (Nat × List Nat)
  | b0 :: b1 :: b2 :: b3 :: rest =>
      some (b0 + 256 * b1 + 65536 * b2 + 16777216 * b3, rest)
  | _ => none

/-- Read a little-endian `u64` from the head of a byte stream. -/
def readU64 : List Nat → Option (Nat × List Nat)
  | b0 :: b1 :: b2 :: b3 :: b4 :: b5 :: b6 :: b7 :: rest =>
      some (b0 + 256 * b1 + 65536 * b2 + 16777216 * b3
              + 4294967296 * b4 + 1099511627776 * b5
              + 281474976710656 * b6 + 72057594037927936 * b7, rest)
  | _ => none

/-- Read a little-endian `i32` (two's complement) from a byte stream. -/
def readI32 (bs : List Nat) : Option (Int × List Nat) :=
  (readU32 bs).map fun p =>
    (if p.1 < 2147483648 then (p.1 : Int) else (p.1 : Int) - 4294967296, p.2)

/-- Variant tag of `Direction` in declaration order. -/
def Direction.tag : Direction → Nat
  | .West => 0
  | .North => 1
  | .East => 2
  | .South => 3

/-- Bincode encoding of a `Direction`. -/
def encodeDirection (d : Direction) : List Nat := u32le d.tag

/-- Bincode decoding of a `Direction`; an out-of-range variant index is a
decode error. -/
def decodeDirection (bs : List Nat) : Option (Direction × List Nat) :=
  match readU32 bs with
  | none => none
  | some (tag, rest) =>
      if tag = 0 then some (.West, rest)
      else if tag = 1 then some (.North, rest)
      else if tag = 2 then some (.East, rest)
      else if tag = 3 then some (.South, rest)
      else none

/-- Bincode encoding of an `Action` value: a `u32` variant tag in
declaration order, followed by the payload of the variant, if any. -/
def encodeAction : Action → List Nat
  | .Move d => u32le 0 ++ encodeDirection d
  | .StayStill => u32le 1
  | .DropBomb => u32le 2
  | .DropBombAndMove d => u32le 3 ++ encodeDirection d

/-- Bincode decoding of an `Action` value. -/
def decodeAction (bs : List Nat) : Option (Action × List Nat) :=
  match readU32 bs with
  | none => none
  | some (tag, rest) =>
      if tag = 0 then (decodeDirection rest).map fun p => (.Move p.1, p.2)
      else if tag = 1 then some (.StayStill, rest)
      else if tag = 2 then some (.DropBomb, rest)
      else if tag = 3 then
        (decodeDirection rest).map fun p => (.DropBombAndMove p.1, p.2)
      else none

/-- Bincode encoding of a `Tile`. -/
def encodeTile (t : Tile) : List Nat :=
  match t with
  | .Wall => u32le 0
  | .Floor => u32le 1
  | .Hill => u32le 2

/-- Bincode decoding of a `Tile`. -/
def decodeTile (bs : List Nat) : Option (Tile × List Nat) :=
  match readU32 bs with
  | none => none
  | some (tag, rest) =>
      if tag = 0 then some (.Wall, rest)
      else if tag = 1 then some (.Floor, rest)
      else if tag = 2 then some (.Hill, rest)
      else none

/-- Bincode encoding of a `PowerUp`. -/
def encodePowerUp (p : PowerUp) : List Nat :=
  match p with
  | .BombRange => u32le 0
  | .SimultaneousBombs => u32le 1
  | .VisionRange => u32le 2

/-- Bincode decoding of a `PowerUp`. -/
def decodePowerUp (bs : List Nat) : Option (PowerUp × List Nat) :=
  match readU32 bs with
  | none => none
  | some (tag, rest) =>
      if tag = 0 then some (.BombRange, rest)
      else if tag = 1 then some (.SimultaneousBombs, rest)
      else if tag = 2 then some (.VisionRange, rest)
      else none

/-- Bincode encoding of an `Object`: `u32` variant tag, then the fields
in order (`Ticks` is a newtype over `u32`). -/
def encodeObject : Object → List Nat
  | .Bomb f r => u32le 0 ++ u32le f.val ++ u32le r
  | .PowerUp p => u32le 1 ++ encodePowerUp p
  | .Crate => u32le 2

/-- Bincode decoding of an `Object`. -/
def decodeObject (bs : List Nat) : Option (Object × List Nat) :=
  match readU32 bs with
  | none => none
  | some (tag, rest) =>
      if tag = 0 then
        match readU32 rest with
        | some (f, rest2) =>
            (readU32 rest2).map fun p => (.Bomb ⟨f⟩ p.1, p.2)
        | none => none
      else if tag = 1 then
        (decodePowerUp rest).map fun p => (.PowerUp p.1, p.2)
      else if tag = 2 then some (.Crate, rest)
      else none

/-- Bincode encoding of an `Option`: one byte, 0 for `None`, 1 followed
by the payload for `Some`. -/
def encodeOption (enc : α → List Nat) : Option α → List Nat
  | none => [0]
  | some a => 1 :: enc a

/-- Bincode decoding of an `Option`. -/
def decodeOption (dec : List Nat → Option (α × List Nat)) :
    List Nat → Option (Option α × List Nat)
  | 0 :: rest => some (none, rest)
  | 1 :: rest => (dec rest).map fun p => (some p.1, p.2)
  | _ => none

/-- Bincode encoding of a `TileOffset` (two `i32` fields in order). -/
def encodeTileOffset (o : TileOffset) : List Nat :=
  i32le o.x ++ i32le o.y

/-- Bincode decoding of a `TileOffset`. -/
def decodeTileOffset (bs : List Nat) : Option (TileOffset × List Nat) :=
  match readI32 bs with
  | some (x, rest) =>
      (readI32 rest).map fun p => (TileOffset.mk x p.1, p.2)
  | none => none

/-- One element of the surroundings passed to `act`: the tuple
`(Tile, Option Object, TileOffset)` built by `wasm_player_action`. -/
abbrev SurroundingsElem := Tile × Option Object × TileOffset

/-- Bincode encoding of one surroundings tuple (field concatenation). -/
def encodeElem (e : SurroundingsElem) : List Nat :=
  encodeTile e.1 ++ encodeOption encodeObject e.2.1 ++ encodeTileOffset e.2.2

/-- Bincode decoding of one surroundings tuple. -/
def decodeElem (bs : List Nat) : Option (SurroundingsElem × List Nat) :=
  match decodeTile bs with
  | some (t, rest) =>
      match decodeOption decodeObject rest with
      | some (ob, rest2) =>
          (decodeTileOffset rest2).map fun p => ((t, ob, p.1), p.2)
      | none => none
  | none => none

/-- Decode `n` consecutive surroundings tuples. -/
def decodeElems : Nat → List Nat → Option (List SurroundingsElem × List Nat)
  | 0, bs => some ([], bs)
  | n + 1, bs =>
      match decodeElem bs with
      | some (e, rest) =>
          (decodeElems n rest).map fun p => (e :: p.1, p.2)
      | none => none

/-- Bincode encoding of the surroundings vector: a `u64` length followed
by the encoded elements. -/
def encodeSurroundings (l : List SurroundingsElem) : List Nat :=
  u64le l.length ++ (l.map encodeElem).flatten

/-- Bincode decoding of the surroundings vector. -/
def decodeSurroundings (bs : List Nat) :
    Option (List SurroundingsElem × List Nat) :=
  match readU64 bs with
  | some (n, rest) => decodeElems n rest
  | none => none

/-! ## Raw u32 conversions (bomber_lib/src/wasm_helpers.rs)

The `From` implementations convert wasm scalars into game types. `Tile`
and `Direction` use `Self::iter().nth(raw).expect(..)` over the
`EnumIter` variant list, which panics on an out-of-range index; `Action`
maps 0 to `StayStill` and any other `x` to
`Move(Direction::from(x.saturating_sub(1)))`. A panic is modelled as
`none`. -/

/-- Variant list produced by `Tile::iter()` (strum `EnumIter`,
declaration order). -/
def tileVariants : List Tile := [.Wall, .Floor, .Hill]

/-- Variant list produced by `Direction::iter()`. -/
def directionVariants : List Direction := [.West, .North, .East, .South]

/-- Embedding of `impl From of u32 for Tile`:
`Self::iter().nth(raw as usize).expect(..)`; `none` models the panic. -/
def tile_from_u32 (raw : Nat) : Option Tile :=
  tileVariants.get? raw

/-- Embedding of `impl From of u32 for Direction`. -/
def direction_from_u32 (raw : Nat) : Option Direction :=
  directionVariants.get? raw

/-- Embedding of `impl From of u32 for Action`: 0 becomes `StayStill`,
any other `x` becomes `Move(Direction::from(x.saturating_sub(1)))`;
`none` models the panic inside `Direction::from`. -/
def action_from_u32 (raw : Nat) : Option Action :=
  match raw with
  | 0 => some .StayStill
  | x => (direction_from_u32 (x - 1)).map .Move

/-- Embedding of `impl From of Action for u32` as found in
`wasm_helpers.rs`: the match covers only `StayStill` and `Move`, so the
other two `Action` variants of `bomber_lib` have no image (`none`). -/
def action_to_u32 : Action → Option Nat
  | .StayStill => some 0
  | .Move d => some (d.tag + 1)
  | .DropBomb => none
  | .DropBombAndMove _ => none

/-! ## Shared buffer protocol — host side
(bomber_macro/src/wasm_wrap.rs, `build_wasm_wrapper`)

The generated wrapper queries the buffer address and capacity, then for
each argument in order: serializes it, records the current address and
the length as the scalar call pair, checks
`address.saturating_sub(base) + length > capacity` and aborts with the
buffer-too-small error if so, otherwise writes the bytes into the
sandbox linear memory at the current address and advances by the
length. Linear memory is modelled as a total function from addresses to
bytes. -/

/-- Sandbox linear memory. -/
abbrev Mem := Nat → Nat

/-- Write one byte at an address. -/
def writeByte (m : Mem) (a b : Nat) : Mem :=
  fun x => if x = a then b else m x

/-- Write a byte string at consecutive addresses starting at `a`
(the effect of `memory.write`). -/
def writeMem (m : Mem) (a : Nat) : List Nat → Mem
  | [] => m
  | b :: bs => writeMem (writeByte m a b) (a + 1) bs

/-- Result of the argument-marshalling loop of the generated wrapper:
either the updated memory together with the recorded
`(address, length)` scalar pairs and the next free address, or the
buffer-too-small failure, carrying the memory as it stands at the
moment the wrapper returns the error. -/
inductive MarshalOutcome where
  | ok (mem : Mem) (pairs : List (Nat × Nat)) (nextAddr : Nat)
  | bufferTooSmall (mem : Mem)

/-- Embedding of the per-argument marshalling loop of
`build_wasm_wrapper`: `args` are the already-serialized byte strings of
the call arguments in order, `base` is the advertised buffer address,
`size` its advertised capacity, and `addr` the running write cursor
(initially `base`). -/
def marshalArgs (m : Mem) (base size addr : Nat) :
    List (List Nat) → MarshalOutcome
  | [] => .ok m [] addr
  | bytes :: rest =>
      if (addr - base) + bytes.length > size then .bufferTooSmall m
      else
        match marshalArgs (writeMem m addr bytes) base size (addr + bytes.length) rest with
        | .ok m2 ps a2 => .ok m2 ((addr, bytes.length) :: ps) a2
        | .bufferTooSmall m2 => .bufferTooSmall m2

/-- Total encoded size of a list of serialized arguments. -/
def sumLens (args : List (List Nat)) : Nat :=
  (args.map List.length).sum

/-! ## Shared buffer protocol — guest side
(bomber_macro/src/wasm_export.rs, `build_shim`)

For a method with an output, the generated shim deserializes its
arguments, runs the method, serializes the output with
`bincode::serialize` into a freshly allocated `Vec` (not into the
static shared buffer), builds the stack tuple
`output_locator = (serialized_output.as_ptr() as i32, output_size as u32)`
and returns `&output_locator as *const _ as i32` — the address of that
tuple — as its scalar result. The host-side wrapper instead interprets
the scalar result as a byte length and reads that many bytes starting
at the shared buffer base address. -/

/-- Advertised capacity of the guest static buffer
(`INPUT_BUFFER_SIZE_BYTES`). -/
def INPUT_BUFFER_SIZE_BYTES : Nat := 10000

/-- Function names the `wasm_export` macro exports with `#[no_mangle]`
for the buffer protocol (`__wasm_get_input_buffer_size` has no
`#[no_mangle]` attribute and is therefore not exported). -/
def guestBufferExports : List String := ["__wasm_get_input_buffer_address"]

/-- Export name the host wrapper looks up to obtain the buffer
address. -/
def hostBufferAddressLookup : String := "__wasm_get_buffer_address"

/-- Export name the host wrapper looks up to obtain the buffer
capacity. -/
def hostBufferSizeLookup : String := "__wasm_get_buffer_size"

/-- Scalar result plus memory effect of one value-returning shim
invocation. -/
structure ShimResult where
  mem : Mem
  ret : Nat

/-- Embedding of the output convention of `build_shim` for a method
with an output: `outBytes` is `bincode::serialize(&output)`, `heapPtr`
the address of the freshly allocated `Vec` data, `stackPtr` the address
of the local `output_locator` tuple. The `Vec` bytes and the 8-byte
locator tuple `(heapPtr, outBytes.len())` are written at those
addresses; the static shared buffer is not written at all; the scalar
return value is the address of the locator tuple. -/
def shimEncodeResult (m : Mem) (outBytes : List Nat)
    (heapPtr stackPtr : Nat) : ShimResult :=
  let m1 := writeMem m heapPtr outBytes
  let m2 := writeMem m1 stackPtr (u32le heapPtr ++ u32le outBytes.length)
  { mem := m2, ret := stackPtr }

/-- Embedding of the output convention of the host wrapper
(`build_wasm_wrapper`, value-returning branch): the scalar result `ret`
of the shim call is used as `return_length`, and that many bytes are
read from sandbox memory starting at the buffer base address. -/
def hostReadResult (m : Mem) (base ret : Nat) : List Nat :=
  (List.range ret).map fun i => m (base + i)

/-! ## Player handles (bomber_game/src/player_hotswap.rs)

`PlayerHandle` wraps a Bevy asset handle into a `.wasm` file, classified
by lifecycle state. The asset identity is modelled by a `Nat` id; the
classification mirrors the three variants. -/

/-- Lifecycle classification of a `.wasm` handle: `ReadyToSpawn`,
`Misbehaved(reason)` or `Respawning(ticks)`. -/
inductive HandleState where
  | ReadyToSpawn
  | Misbehaved (reason : String)
  | Respawning (ticks_remaining : Nat)
deriving DecidableEq, Repr

/-- Embedding of `PlayerHandle`: the inner asset id plus the lifecycle
state carried by the variant. -/
structure PlayerHandle where
  id : Nat
  state : HandleState
deriving DecidableEq, Repr

/-- Embedding of `PlayerHandle::is_ready_to_spawn`. -/
def PlayerHandle.is_ready_to_spawn (h : PlayerHandle) : Bool :=
  match h.state with
  | .ReadyToSpawn => true
  | _ => false

/-- Embedding of `PlayerHandle::invalidate`: the handle is replaced by
`Misbehaved` around the same inner asset handle, keeping the reason. -/
def PlayerHandle.invalidate (h : PlayerHandle) (reason : String) : PlayerHandle :=
  { h with state := .Misbehaved reason }

/-- Embedding of
`handles.0.iter_mut().find(|h| h.inner().id == id)` followed by
`handle.invalidate(..)`: only the first handle with the given id is
replaced. -/
def invalidateFirst (id : Nat) (reason : String) :
    List PlayerHandle → List PlayerHandle
  | [] => []
  | h :: t =>
      if h.id = id then h.invalidate reason :: t
      else h :: invalidateFirst id reason t

/-- Fixed respawn delay (`RESPAWN_TIME: Ticks = Ticks(3)`). -/
def RESPAWN_TIME : Ticks := ⟨3⟩

/-! ## Turn invocation driver
(bomber_game/src/player_behaviour.rs, `player_action_system`)

For each live player on a player tick, the driver invokes
`wasm_player_action`; on error it logs, invalidates the first matching
handle and `continue`s (no action applied, no fuel accounted this
turn). On success it applies the action (gameplay rejections are
downgraded to a log), then reads the cumulative fuel counter and
records `total_fuel_consumed.checked_sub(player.total_fuel_consumed)
.expect("Invalid fuel count")` — the panic on underflow is modelled by
a `none` overall result. -/

/-- Embedding of `u64::checked_sub`. -/
def checked_sub (a b : Nat) : Option Nat :=
  if b ≤ a then some (a - b) else none

/-- Observable outcome of one player slot of `player_action_system` on
a player tick: the handle list afterwards, the action applied (if any),
the recorded per-turn fuel (if the agent got that far), and the new
cumulative counter stored back into the `Player` component. -/
structure TurnOutcome where
  handles : List PlayerHandle
  appliedAction : Option Action
  fuelRecorded : Option Nat
  totalFuelConsumed : Nat
deriving Repr

/-- Embedding of the per-player loop body of `player_action_system`.
`callResult` is the outcome of `wasm_player_action` (an `Err` covers a
trap, fuel exhaustion, or a decode failure of the returned action);
`prevTotal` is `player.total_fuel_consumed` before the call and
`fuelAfter` is `store.fuel_consumed()` after it. The overall `none`
models the `expect("Invalid fuel count")` panic. -/
def playerTurnBody (callResult : Except String Action)
    (handles : List PlayerHandle) (id : Nat)
    (prevTotal fuelAfter : Nat) : Option TurnOutcome :=
  match callResult with
  | .error e =>
      some { handles := invalidateFirst id e handles,
             appliedAction := none,
             fuelRecorded := none,
             totalFuelConsumed := prevTotal }
  | .ok action =>
      match checked_sub fuelAfter prevTotal with
      | none => none
      | some d =>
          some { handles := handles,
                 appliedAction := some action,
                 fuelRecorded := some d,
                 totalFuelConsumed := fuelAfter }

/-! ## Agent lifecycle state machine
(bomber_game/src/player_behaviour.rs and player_hotswap.rs)

The live game state relevant to the at-most-one-agent invariant is the
handle list plus the multiset of live player entities, each tagged with
the asset id of its wasm handle. Each Bevy system that can touch either
is embedded as one step. -/

/-- Handle list plus the asset ids of the live player entities. -/
structure LifecycleState where
  handles : List PlayerHandle
  agents : List Nat
deriving Repr

/-- Environment outcome of one `spawn_player` attempt: the JIT compile
or instantiation failed (`?` propagates, handle untouched), the name or
team-name query failed (handle set to `Misbehaved`), or everything
succeeded (a live player entity is created). -/
inductive SpawnOutcome where
  | compileFail
  | nameFail (reason : String)
  | success
deriving Repr

/-- Candidate selection of `player_spawn_system`: the first handle that
`is_ready_to_spawn` and has no live player entity with its asset id
(`player_query.iter_mut().all(|(_, h, _)| h.id != handle.inner().id)`). -/
def pickSpawnCandidate (s : LifecycleState) : Option PlayerHandle :=
  s.handles.find? fun h =>
    h.is_ready_to_spawn && !(s.agents.contains h.id)

/-- Replace the spawn candidate (the first handle satisfying the spawn
filter) using `f`. -/
def updateSpawnCandidate (s : LifecycleState) (f : PlayerHandle → PlayerHandle) :
    List PlayerHandle :=
  go s.handles
where
  go : List PlayerHandle → List PlayerHandle
    | [] => []
    | h :: t =>
        if h.is_ready_to_spawn && !(s.agents.contains h.id) then f h :: t
        else h :: go t

/-- Embedding of the spawn half of `player_spawn_system`: at most one
ready handle is zipped with an available spawner location and passed to
`spawn_player`; compile failures leave the handle untouched, name-query
failures set it to `Misbehaved`, success creates one live player entity
carrying the handle id. -/
def spawnStep (s : LifecycleState) (availableLocations : Nat)
    (outcome : SpawnOutcome) : LifecycleState :=
  match pickSpawnCandidate s, availableLocations with
  | some h, _ + 1 =>
      match outcome with
      | .compileFail => s
      | .nameFail reason =>
          { s with handles := updateSpawnCandidate s (·.invalidate reason) }
      | .success => { s with agents := h.id :: s.agents }
  | _, _ => s

/-- Embedding of the despawn half of `player_spawn_system`: every live
player entity whose asset id no longer appears in the handle list is
despawned. -/
def despawnStep (s : LifecycleState) : LifecycleState :=
  { s with agents := s.agents.filter fun a => s.handles.any (·.id = a) }

/-- Embedding of `player_ban_system`: every live player entity whose
handle is currently `Misbehaved` is despawned (and replaced by a ban
sign, which is not a player). -/
def banStep (s : LifecycleState) : LifecycleState :=
  { s with
    agents := s.agents.filter fun a =>
      match s.handles.find? (·.id = a) with
      | some h => !(match h.state with | .Misbehaved _ => true | _ => false)
      | none => true }

/-- Embedding of `player_death_system` for one `KillPlayerEvent`: the
killed player entity is despawned and its handle becomes
`Respawning(RESPAWN_TIME)`. -/
def deathStep (s : LifecycleState) (victim : Nat) : LifecycleState :=
  if s.agents.contains victim then
    { handles :=
        (s.handles.map fun h =>
          if h.id = victim then { h with state := .Respawning RESPAWN_TIME.val }
          else h),
      agents := s.agents.erase victim }
  else s

/-- Embedding of the per-handle body of `player_respawn_system` on a
world tick: a positive respawn counter is decremented, a zero counter
turns the handle back into `ReadyToSpawn`, other states are
unchanged. -/
def player_respawn_step : HandleState → HandleState
  | .ReadyToSpawn => .ReadyToSpawn
  | .Misbehaved r => .Misbehaved r
  | .Respawning (t + 1) => .Respawning t
  | .Respawning 0 => .ReadyToSpawn

/-- Embedding of `player_respawn_system` on one world tick. -/
def respawnTickStep (s : LifecycleState) : LifecycleState :=
  { s with
    handles := s.handles.map fun h => { h with state := player_respawn_step h.state } }

/-- Embedding of `unban_system` for one modified asset: the first
matching handle, if `Misbehaved`, becomes `ReadyToSpawn`. -/
def unbanStep (s : LifecycleState) (modified : Nat) : LifecycleState :=
  { s with
    handles := go s.handles }
where
  go : List PlayerHandle → List PlayerHandle
    | [] => []
    | h :: t =>
        if h.id = modified then
          match h.state with
          | .Misbehaved _ => { h with state := .ReadyToSpawn } :: t
          | _ => h :: t
        else h :: go t

/-- Embedding of `hotswap_system`: handles whose file disappeared are
removed, unknown files gain a fresh `ReadyToSpawn` handle, and the list
is truncated to `MAX_PLAYERS`. -/
def hotswapStep (s : LifecycleState) (newIds : List Nat) (maxPlayers : Nat) :
    LifecycleState :=
  let kept := s.handles.filter fun h => newIds.contains h.id
  let fresh := (newIds.filter fun i => s.handles.all (·.id ≠ i)).map
    fun i => PlayerHandle.mk i .ReadyToSpawn
  { s with handles := (kept ++ fresh).take maxPlayers }

/-- Embedding of the fault path of `player_action_system`: the first
handle matching the faulting player is invalidated; the entity itself
stays live until `player_ban_system` picks it up. -/
def faultStep (s : LifecycleState) (id : Nat) (reason : String) : LifecycleState :=
  { s with handles := invalidateFirst id reason s.handles }

/-- One scheduler choice: which system body runs next, together with
its environment inputs. -/
inductive LifecycleChoice where
  | spawn (availableLocations : Nat) (outcome : SpawnOutcome)
  | despawn
  | ban
  | death (victim : Nat)
  | respawnTick
  | unban (modified : Nat)
  | hotswap (newIds : List Nat) (maxPlayers : Nat)
  | fault (id : Nat) (reason : String)

/-- Apply one scheduler choice. -/
def applyChoice (c : LifecycleChoice) (s : LifecycleState) : LifecycleState :=
  match c with
  | .spawn a o => spawnStep s a o
  | .despawn => despawnStep s
  | .ban => banStep s
  | .death v => deathStep s v
  | .respawnTick => respawnTickStep s
  | .unban m => unbanStep s m
  | .hotswap ids mx => hotswapStep s ids mx
  | .fault i r => faultStep s i r

/-- Run a sequence of scheduler choices. -/
def applyChoices (cs : List LifecycleChoice) (s : LifecycleState) : LifecycleState :=
  cs.foldl (fun st c => applyChoice c st) s

/-- Number of live player entities tagged with a given handle id. -/
def agentCount (s : LifecycleState) (id : Nat) : Nat :=
  s.agents.count id

/-! ## Hot reload of a live agent
(bomber_game/src/player_hotswap.rs, `live_brain_reload_system`)

For each modified asset with a live player, the system recompiles the
module and creates a fresh instance inside the existing store (a `?`
failure aborts the whole system run, which is chained into a
recoverable-error logger). It then queries the display name:
`if let Ok(name) = wasm_name(..) { update the name }` — there is no
`else` branch, so a failed name query leaves both the player name and
the handle untouched. -/

/-- Maximum name length used by `filter_name` in
`player_behaviour.rs`. -/
def MAX_NAME_CHARS : Nat := 16

/-- Embedding of `filter_name`: the first line of the reported name,
truncated to `MAX_NAME_CHARS` characters; an empty name (no lines)
becomes `"Trickster"`. -/
def filter_name (name : String) : String :=
  if name = "" then "Trickster"
  else ((name.takeWhile (· ≠ '\n')).take MAX_NAME_CHARS)

/-- Observable outcome of one live-reload pass for one player: the
displayed player name and the state of its handle afterwards. -/
structure ReloadOutcome where
  playerName : String
  handleState : HandleState
deriving DecidableEq, Repr

/-- Embedding of the per-player body of `live_brain_reload_system`:
`compileResult` covers `Module::new` plus `Instance::new`, and
`nameResult` is the `wasm_name` query against the fresh instance.
`currentName` and `hstate` are the player name and the handle state
before the pass. An `Err` compile aborts the system run with that
error; otherwise the name is updated only when the query succeeds, and
the handle state is returned unchanged in both cases. -/
def live_brain_reload (compileResult : Except String Unit)
    (nameResult : Except String String)
    (currentName : String) (hstate : HandleState) :
    Except String ReloadOutcome :=
  match compileResult with
  | .error e => .error e
  | .ok _ =>
      match nameResult with
      | .ok name => .ok ⟨filter_name name, hstate⟩
      | .error _ => .ok ⟨currentName, hstate⟩

/-- Embedding of the name-query half of `spawn_player`
(player_behaviour.rs): a failed `wasm_name` call sets the handle to
`Misbehaved` and aborts the spawn; a successful one keeps the handle
and yields the filtered name. -/
def spawn_player_name_check (nameResult : Except String String)
    (h : PlayerHandle) : PlayerHandle × Option String :=
  match nameResult with
  | .ok name => (h, some (filter_name name))
  | .error _ =>
      (⟨h.id, .Misbehaved "Wasm failed to return name, invalidating handle."⟩,
       none)

/-! ## World view construction
(bomber_game/src/player_behaviour.rs, `wasm_player_action`)

The surroundings passed to the decision call are built from the tile
entities: each tile whose offset from the player location has taxicab
distance at most `PLAYER_VIEW_TAXICAB_DISTANCE` contributes the tuple
`(tile, first object found at that location, offset)`. -/

/-- Vision radius (`PLAYER_VIEW_TAXICAB_DISTANCE: u32 = 5`). -/
def PLAYER_VIEW_TAXICAB_DISTANCE : Nat := 5

/-- Embedding of `struct TileLocation(pub usize, pub usize)`. -/
structure TileLocation where
  x : Nat
  y : Nat
deriving DecidableEq, Repr

/-- Embedding of `impl Sub for TileLocation`:
`TileOffset(self.0 as i32 - rhs.0 as i32, self.1 as i32 - rhs.1 as i32)`. -/
def TileLocation.sub (a b : TileLocation) : TileOffset :=
  ⟨(a.x : Int) - (b.x : Int), (a.y : Int) - (b.y : Int)⟩

/-- Embedding of the surroundings construction in `wasm_player_action`:
a `filter_map` over the tile entities, pairing each in-range tile with
the first object found at its location and its offset from the
player. -/
def wasm_player_surroundings (tiles : List (TileLocation × Tile))
    (objects : List (TileLocation × Object))
    (player_location : TileLocation) : List SurroundingsElem :=
  tiles.filterMap fun lt =>
    let object_on_tile := (objects.find? fun lo => lo.1 = lt.1).map (·.2)
    if (lt.1.sub player_location).taxicab_distance ≤ PLAYER_VIEW_TAXICAB_DISTANCE
    then some (lt.2, object_on_tile, lt.1.sub player_location)
    else none

/-! ## Auxiliary definitions used by the statements below -/

/-- Representability of an `i32` field value in the `Int` model. -/
def ValidI32 (i : Int) : Prop := -2147483648 ≤ i ∧ i < 2147483648

instance (i : Int) : Decidable (ValidI32 i) :=
  decidable_of_iff (-2147483648 ≤ i ∧ i < 2147483648) Iff.rfl

/-- Representability of a `TileOffset` (two `i32` fields). -/
def ValidOffset (o : TileOffset) : Prop := ValidI32 o.x ∧ ValidI32 o.y

instance (o : TileOffset) : Decidable (ValidOffset o) :=
  decidable_of_iff (ValidI32 o.x ∧ ValidI32 o.y) Iff.rfl

/-- Representability of an `Object` (its `u32` fields fit in 32 bits). -/
def ValidObject : Object → Prop
  | .Bomb f r => f.val < 4294967296 ∧ r < 4294967296
  | .PowerUp _ => True
  | .Crate => True

instance : (ob : Object) → Decidable (ValidObject ob)
  | .Bomb f r =>
      decidable_of_iff (f.val < 4294967296 ∧ r < 4294967296) Iff.rfl
  | .PowerUp _ => .isTrue trivial
  | .Crate => .isTrue trivial

/-- Representability of an optional `Object` payload. -/
def ValidOptObject : Option Object → Prop
  | some ob => ValidObject ob
  | none => True

instance : (ob : Option Object) → Decidable (ValidOptObject ob)
  | some ob => decidable_of_iff (ValidObject ob) Iff.rfl
  | none => .isTrue trivial

/-- Representability of one surroundings tuple. -/
def ValidElem (e : SurroundingsElem) : Prop :=
  ValidOptObject e.2.1 ∧ ValidOffset e.2.2

instance (e : SurroundingsElem) : Decidable (ValidElem e) :=
  decidable_of_iff (ValidOptObject e.2.1 ∧ ValidOffset e.2.2) Iff.rfl

/-- All-zero sandbox linear memory, used as a concrete start state. -/
def zeroMem : Mem := fun _ => 0

/-- Whether a lifecycle state is the banned one. -/
def HandleState.isMisbehaved : HandleState → Bool
  | .Misbehaved _ => true
  | _ => false

/-- Iterate `player_respawn_step` over `n` world ticks. -/
def player_respawn_iter : Nat → HandleState → HandleState
  | 0, h => h
  | n + 1, h => player_respawn_iter n (player_respawn_step h)

/-! # Theorems -/

/-! ## Codec round-trip lemmas -/

lemma readU32_u32le (n : Nat) (rest : List Nat) (h : n < 4294967296) :
    readU32 (u32le n ++ rest) = some (n, rest) := by
  simp only [u32le, readU32, List.cons_append, List.nil_append]
  have hn : n % 256 + 256 * (n / 256 % 256) + 65536 * (n / 65536 % 256)
      + 16777216 * (n / 16777216 % 256) = n := by omega
  rw [hn]

lemma readU64_u64le (n : Nat) (rest : List Nat)
    (h : n < 18446744073709551616) :
    readU64 (u64le n ++ rest) = some (n, rest) := by
  simp only [u64le, readU64, List.cons_append, List.nil_append]
  have hn : n % 256 + 256 * (n / 256 % 256) + 65536 * (n / 65536 % 256)
      + 16777216 * (n / 16777216 % 256)
      + 4294967296 * (n / 4294967296 % 256)
      + 1099511627776 * (n / 1099511627776 % 256)
      + 281474976710656 * (n / 281474976710656 % 256)
      + 72057594037927936 * (n / 72057594037927936 % 256) = n := by omega
  rw [hn]

lemma readI32_i32le (i : Int) (rest : List Nat) (hv : ValidI32 i) :
    readI32 (i32le i ++ rest) = some (i, rest) := by
  obtain ⟨h1, h2⟩ := hv
  have hlt : (i % 4294967296).toNat < 4294967296 := by omega
  simp only [readI32, i32le, readU32_u32le _ rest hlt, Option.map_some']
  have hi : (if (i % 4294967296).toNat < 2147483648
      then ((i % 4294967296).toNat : Int)
      else ((i % 4294967296).toNat : Int) - 4294967296) = i := by
    split_ifs <;> omega
  rw [hi]

lemma decodeDirection_encodeDirection (d : Direction) (rest : List Nat) :
    decodeDirection (encodeDirection d ++ rest) = some (d, rest) := by
  cases d <;> rfl

lemma decodeTile_encodeTile (t : Tile) (rest : List Nat) :
    decodeTile (encodeTile t ++ rest) = some (t, rest) := by
  cases t <;> rfl

lemma decodePowerUp_encodePowerUp (p : PowerUp) (rest : List Nat) :
    decodePowerUp (encodePowerUp p ++ rest) = some (p, rest) := by
  cases p <;> rfl

lemma decodeObject_encodeObject (ob : Object) (rest : List Nat)
    (hv : ValidObject ob) :
    decodeObject (encodeObject ob ++ rest) = some (ob, rest) := by
  cases ob with
  | Bomb f r =>
      obtain ⟨hf, hr⟩ := hv
      have h0 : (0 : Nat) < 4294967296 := by norm_num
      simp only [encodeObject, decodeObject, List.append_assoc,
        readU32_u32le 0 _ h0, readU32_u32le f.val _ hf,
        readU32_u32le r _ hr, Option.map_some']
      rfl
  | PowerUp p =>
      have h1 : (1 : Nat) < 4294967296 := by norm_num
      simp only [encodeObject, decodeObject, List.append_assoc,
        readU32_u32le 1 _ h1, decodePowerUp_encodePowerUp,
        Option.map_some']
      rfl
  | Crate =>
      have h2 : (2 : Nat) < 4294967296 := by norm_num
      simp only [encodeObject, decodeObject,
        readU32_u32le 2 _ h2]
      rfl

lemma decodeOption_encodeObject (ob : Option Object) (rest : List Nat)
    (hv : ValidOptObject ob) :
    decodeOption decodeObject (encodeOption encodeObject ob ++ rest)
      = some (ob, rest) := by
  cases ob with
  | none => rfl
  | some o =>
      simp only [encodeOption, decodeOption, List.cons_append,
        decodeObject_encodeObject o rest hv, Option.map_some']

lemma decodeTileOffset_encodeTileOffset (o : TileOffset) (rest : List Nat)
    (hv : ValidOffset o) :
    decodeTileOffset (encodeTileOffset o ++ rest) = some (o, rest) := by
  obtain ⟨hx, hy⟩ := hv
  simp only [encodeTileOffset, decodeTileOffset, List.append_assoc,
    readI32_i32le o.x _ hx, readI32_i32le o.y _ hy, Option.map_some']

lemma decodeElem_encodeElem (e : SurroundingsElem) (rest : List Nat)
    (hv : ValidElem e) :
    decodeElem (encodeElem e ++ rest) = some (e, rest) := by
  obtain ⟨t, ob, off⟩ := e
  obtain ⟨hob, hoff⟩ := hv
  simp only [encodeElem, decodeElem, List.append_assoc,
    decodeTile_encodeTile, decodeOption_encodeObject ob _ hob,
    decodeTileOffset_encodeTileOffset off rest hoff, Option.map_some']

lemma decodeElems_encoded (l : List SurroundingsElem) (rest : List Nat)
    (hv : ∀ e ∈ l, ValidElem e) :
    decodeElems l.length ((l.map encodeElem).flatten ++ rest)
      = some (l, rest) := by
  induction l with
  | nil => rfl
  | cons e t ih =>
      have h1 := decodeElem_encodeElem e ((t.map encodeElem).flatten ++ rest)
        (hv e (by simp))
      have h2 := ih (fun x hx => hv x (by simp [hx]))
      show decodeElems (t.length + 1)
        ((encodeElem e ++ (t.map encodeElem).flatten) ++ rest) = some (e :: t, rest)
      unfold decodeElems
      rw [List.append_assoc, h1]
      show Option.map (fun p => (e :: p.1, p.2))
        (decodeElems t.length ((t.map encodeElem).flatten ++ rest))
          = some (e :: t, rest)
      rw [h2]
      rfl

/-- Claim C4: for every constructible value of the wire-exchanged types
of the decision call — every `Action`, including `DropBomb` and
`DropBombAndMove`, and every representable surroundings vector — the
bincode decode of the bincode encode returns the original value with no
bytes left over. -/
theorem c4_roundtrip :
    (∀ a : Action, decodeAction (encodeAction a) = some (a, [])) ∧
    (∀ l : List SurroundingsElem,
      l.length < 18446744073709551616 →
      (∀ e ∈ l, ValidElem e) →
      decodeSurroundings (encodeSurroundings l) = some (l, [])) := by
  constructor
  · intro a
    cases a with
    | Move d => cases d <;> rfl
    | StayStill => rfl
    | DropBomb => rfl
    | DropBombAndMove d => cases d <;> rfl
  · intro l hlen hv
    have hd := decodeElems_encoded l [] hv
    rw [List.append_nil] at hd
    show decodeSurroundings (u64le l.length ++ (l.map encodeElem).flatten)
      = some (l, [])
    unfold decodeSurroundings
    rw [readU64_u64le l.length _ hlen]
    exact hd

/-- Claim C4 witness: the round trip evaluated at concrete inputs. -/
theorem c4_roundtrip_witness :
    decodeAction (encodeAction .DropBomb) = some (.DropBomb, []) ∧
    decodeSurroundings
        (encodeSurroundings [(.Floor, some (.Bomb ⟨2⟩ 3), ⟨-1, 2⟩)])
      = some ([(.Floor, some (.Bomb ⟨2⟩ 3), ⟨-1, 2⟩)], []) :=
  ⟨c4_roundtrip.1 .DropBomb,
   c4_roundtrip.2 [(.Floor, some (.Bomb ⟨2⟩ 3), ⟨-1, 2⟩)]
     (by norm_num) (by decide)⟩

/-! ## Raw u32 conversions -/

lemma get?_isSome_iff {α : Type} (l : List α) (n : Nat) :
    (l.get? n).isSome ↔ n < l.length := by
  induction l generalizing n with
  | nil => simp [List.get?]
  | cons a t ih =>
      cases n with
      | zero => simp [List.get?]
      | succ n => simpa [List.get?, Nat.succ_lt_succ_iff] using ih n

/-- Claim C3 counterexample: decoding an out-of-range raw `u32` into
`Tile`, `Direction` or `Action` hits the `expect` call and panics
(modelled by `none`), refuting the claim that these conversions never
panic for any `u32` input. -/
theorem c3_counterexample :
    tile_from_u32 3 = none ∧ direction_from_u32 4 = none ∧
    action_from_u32 5 = none := by
  decide

/-- Claim C3 (amended): the raw `u32` conversions succeed without
panicking exactly on in-range discriminants — `raw < 3` for `Tile`,
`raw < 4` for `Direction` and `raw < 5` for `Action`; every
out-of-range raw value panics in the `expect` inside the conversion. -/
theorem c3_panic_characterization (raw : Nat) :
    ((tile_from_u32 raw).isSome ↔ raw < 3) ∧
    ((direction_from_u32 raw).isSome ↔ raw < 4) ∧
    ((action_from_u32 raw).isSome ↔ raw < 5) := by
  refine ⟨?_, ?_, ?_⟩
  · simpa [tile_from_u32, tileVariants] using get?_isSome_iff tileVariants raw
  · simpa [direction_from_u32, directionVariants] using
      get?_isSome_iff directionVariants raw
  · cases raw with
    | zero => simp [action_from_u32]
    | succ n =>
        have hdir := get?_isSome_iff directionVariants n
        have hlen : directionVariants.length = 4 := rfl
        rw [hlen] at hdir
        have hred : action_from_u32 (n + 1)
            = (directionVariants.get? n).map Action.Move := rfl
        rw [hred]
        cases hg : directionVariants.get? n with
        | none =>
            rw [hg] at hdir
            simp only [Option.map_none', Option.isSome_none,
              Bool.false_eq_true, false_iff] at hdir ⊢
            omega
        | some d =>
            rw [hg] at hdir
            simp only [Option.map_some', Option.isSome_some,
              true_iff] at hdir ⊢
            omega

/-! ## Shared buffer protocol -/

/-- Claim C1: the guest-side shim and the host-side wrapper disagree on
the return convention. The host reads the export
`__wasm_get_buffer_address`, which the guest does not export, and the
guest returns the address of its stack locator tuple — not the encoded
byte length — while leaving the shared buffer untouched, so the bytes
the host decodes at the buffer base are not the bytes the guest
produced. Evaluated at the concrete call returning
`Action::StayStill`. -/
theorem c1_return_convention_mismatch :
    hostBufferAddressLookup ∉ guestBufferExports ∧
    (shimEncodeResult zeroMem (encodeAction .StayStill) 20000 30000).ret
        = 30000 ∧
    (shimEncodeResult zeroMem (encodeAction .StayStill) 20000 30000).ret
        ≠ (encodeAction .StayStill).length ∧
    hostReadResult
        (shimEncodeResult zeroMem (encodeAction .StayStill) 20000 30000).mem
        0 (encodeAction .StayStill).length
      ≠ encodeAction .StayStill := by
  refine ⟨?_, rfl, ?_, ?_⟩ <;> decide

lemma writeMem_append (m : Mem) (a : Nat) (xs ys : List Nat) :
    writeMem m a (xs ++ ys) = writeMem (writeMem m a xs) (a + xs.length) ys := by
  induction xs generalizing m a with
  | nil => simp [writeMem]
  | cons b bs ih =>
      show writeMem (writeByte m a b) (a + 1) (bs ++ ys)
        = writeMem (writeMem (writeByte m a b) (a + 1) bs)
            (a + (bs.length + 1)) ys
      rw [ih, show a + (bs.length + 1) = a + 1 + bs.length by omega]

lemma marshal_overflow_aux (base size : Nat) (args : List (List Nat)) :
    ∀ (m : Mem) (off : Nat), off ≤ size → off + sumLens args > size →
      ∃ k, k < args.length ∧
        marshalArgs m base size (base + off) args
          = .bufferTooSmall (writeMem m (base + off) ((args.take k).flatten)) ∧
        off + sumLens (args.take k) ≤ size := by
  induction args with
  | nil =>
      intro m off h1 h2
      simp [sumLens] at h2
      omega
  | cons bytes rest ih =>
      intro m off h1 h2
      by_cases hb : off + bytes.length > size
      · refine ⟨0, by simp, ?_, by simpa [sumLens] using h1⟩
        have hcond : (base + off - base) + bytes.length > size := by omega
        unfold marshalArgs
        rw [if_pos hcond]
        rfl
      · push_neg at hb
        have h2' : (off + bytes.length) + sumLens rest > size := by
          simp only [sumLens, List.map_cons, List.sum_cons] at h2
          simp only [sumLens]
          omega
        obtain ⟨k, hk, heq, hle⟩ :=
          ih (writeMem m (base + off) bytes) (off + bytes.length) hb h2'
        refine ⟨k + 1, by simpa using Nat.succ_lt_succ hk, ?_, ?_⟩
        · have hcond : ¬ ((base + off - base) + bytes.length > size) := by
            omega
          have haddr : base + off + bytes.length
              = base + (off + bytes.length) := by omega
          unfold marshalArgs
          rw [if_neg hcond, haddr, heq, List.take_succ_cons,
            List.flatten_cons, writeMem_append, haddr]
        · simp only [sumLens, List.take_succ_cons, List.map_cons,
            List.sum_cons]
          simp only [sumLens] at hle
          omega

/-- Claim C2 counterexample: with an advertised capacity of 4 and the
two serialized arguments `[1,1,1]` and `[2,2,2]`, marshalling fails
with the buffer-too-small error, yet at the point of failure the first
argument has already been written into sandbox memory (byte 0 now holds
1 where the original memory held 0), refuting the zero-bytes-written
part of the claim. -/
theorem c2_counterexample :
    marshalArgs zeroMem 0 4 0 [[1, 1, 1], [2, 2, 2]]
        = .bufferTooSmall (writeMem zeroMem 0 [1, 1, 1]) ∧
    writeMem zeroMem 0 [1, 1, 1] 0 = 1 ∧
    zeroMem 0 = 0 ∧
    sumLens [[1, 1, 1], [2, 2, 2]] > 4 :=
  ⟨rfl, rfl, rfl, by decide⟩

/-- Claim C2 (amended): when the cumulative encoded size of the
arguments exceeds the advertised capacity, marshalling always fails
with the buffer-too-small error before writing the offending argument,
but the arguments preceding it in the same call have already been
written: the memory at failure is exactly the original memory with the
first `k` arguments written consecutively from the buffer base, for
some `k` below the argument count whose cumulative size still fits. -/
theorem c2_bufferTooSmall_prior_args_written (m : Mem) (base size : Nat)
    (args : List (List Nat)) (h : sumLens args > size) :
    ∃ k, k < args.length ∧
      marshalArgs m base size base args
        = .bufferTooSmall (writeMem m base ((args.take k).flatten)) ∧
      sumLens (args.take k) ≤ size := by
  have haux := marshal_overflow_aux base size args m 0 (Nat.zero_le _)
    (by omega)
  simpa using haux

/-- Claim C2 witness: the amended statement evaluated at the concrete
overflowing argument list of the counterexample. -/
theorem c2_amended_witness :
    sumLens [[1, 1, 1], [2, 2, 2]] > 4 ∧
    ∃ k, k < ([[1, 1, 1], [2, 2, 2]] : List (List Nat)).length ∧
      marshalArgs zeroMem 0 4 0 [[1, 1, 1], [2, 2, 2]]
        = .bufferTooSmall
            (writeMem zeroMem 0 ((([[1, 1, 1], [2, 2, 2]] : List (List Nat)).take k).flatten)) ∧
      sumLens (([[1, 1, 1], [2, 2, 2]] : List (List Nat)).take k) ≤ 4 :=
  ⟨by decide, c2_bufferTooSmall_prior_args_written zeroMem 0 4 _ (by decide)⟩

/-! ## Turn driver fault handling and fuel accounting -/

lemma invalidateFirst_find (id : Nat) (r : String) (l : List PlayerHandle)
    (h : ∃ ph ∈ l, ph.id = id) :
    ∃ ph, ((invalidateFirst id r l).find? fun x => x.id == id) = some ph ∧
      ph.id = id ∧ ph.state = .Misbehaved r ∧ ph.is_ready_to_spawn = false := by
  induction l with
  | nil => simp at h
  | cons a t ih =>
      by_cases ha : a.id = id
      · refine ⟨a.invalidate r, ?_, by simpa [PlayerHandle.invalidate] using ha,
          rfl, rfl⟩
        unfold invalidateFirst
        rw [if_pos ha]
        apply List.find?_cons_of_pos
        simpa [PlayerHandle.invalidate] using ha
      · have h' : ∃ ph ∈ t, ph.id = id := by
          rcases h with ⟨ph, hmem, hid⟩
          rcases List.mem_cons.mp hmem with heq | hmem'
          · exact absurd (heq ▸ hid) ha
          · exact ⟨ph, hmem', hid⟩
        obtain ⟨ph, hfind, hrest⟩ := ih h'
        refine ⟨ph, ?_, hrest⟩
        unfold invalidateFirst
        rw [if_neg ha]
        rw [List.find?_cons_of_neg _ (by simpa using ha)]
        exact hfind

/-- Claim C5: when the decision call of a live agent ends in a runtime
fault, the driver applies no action, records no fuel for that agent
this tick, and the first handle matching the agent transitions to
`Misbehaved` — in particular it is no longer spawnable. -/
theorem c5_fault_bans_agent (e : String) (handles : List PlayerHandle)
    (id prev fuelAfter : Nat)
    (hmem : ∃ ph ∈ handles, ph.id = id) :
    ∃ out, playerTurnBody (.error e) handles id prev fuelAfter = some out ∧
      out.appliedAction = none ∧
      out.fuelRecorded = none ∧
      ∃ ph, (out.handles.find? fun x => x.id == id) = some ph ∧
        ph.state = .Misbehaved e ∧ ph.is_ready_to_spawn = false := by
  refine ⟨_, rfl, rfl, rfl, ?_⟩
  obtain ⟨ph, hfind, _, hstate, hready⟩ := invalidateFirst_find id e handles hmem
  exact ⟨ph, hfind, hstate, hready⟩

/-- Claim C5 witness: a faulting agent with a single matching
`ReadyToSpawn` handle. -/
theorem c5_fault_bans_agent_witness :
    (∃ ph ∈ [PlayerHandle.mk 7 .ReadyToSpawn], ph.id = 7) ∧
    ∃ out, playerTurnBody (.error "trap") [PlayerHandle.mk 7 .ReadyToSpawn]
        7 0 0 = some out ∧
      out.appliedAction = none ∧
      out.fuelRecorded = none ∧
      ∃ ph, (out.handles.find? fun x => x.id == 7) = some ph ∧
        ph.state = .Misbehaved "trap" ∧ ph.is_ready_to_spawn = false :=
  ⟨⟨PlayerHandle.mk 7 .ReadyToSpawn, by simp, rfl⟩,
   c5_fault_bans_agent "trap" [PlayerHandle.mk 7 .ReadyToSpawn] 7 0 0
     ⟨PlayerHandle.mk 7 .ReadyToSpawn, by simp, rfl⟩⟩

/-- Claim C9: on a successful decision call, the recorded per-turn fuel
is exactly the cumulative counter after the call minus the counter
before it (non-negative by construction, as witnessed by
`recorded + before = after`), and the handle list is left untouched; if
the subtraction would underflow, the driver panics
(`expect("Invalid fuel count")`, modelled by `none`) instead of
producing any outcome — in particular no handle is marked misbehaved on
that path. -/
theorem c9_fuel_delta (a : Action) (handles : List PlayerHandle)
    (id prev fuelAfter : Nat) :
    (prev ≤ fuelAfter →
      playerTurnBody (.ok a) handles id prev fuelAfter
        = some ⟨handles, some a, some (fuelAfter - prev), fuelAfter⟩ ∧
      (fuelAfter - prev) + prev = fuelAfter) ∧
    (fuelAfter < prev →
      playerTurnBody (.ok a) handles id prev fuelAfter = none) := by
  have hpt : playerTurnBody (.ok a) handles id prev fuelAfter
      = (match checked_sub fuelAfter prev with
         | none => (none : Option TurnOutcome)
         | some d => some ⟨handles, some a, some d, fuelAfter⟩) := rfl
  constructor
  · intro h
    have hcs : checked_sub fuelAfter prev = some (fuelAfter - prev) := by
      unfold checked_sub
      rw [if_pos h]
    constructor
    · rw [hpt, hcs]
    · omega
  · intro h
    have hcs : checked_sub fuelAfter prev = none := by
      unfold checked_sub
      rw [if_neg (by omega)]
    rw [hpt, hcs]

/-- Claim C9 witness: the fuel delta evaluated at concrete counters,
both on the normal path and on the underflow (panic) path. -/
theorem c9_fuel_delta_witness :
    (playerTurnBody (.ok .StayStill) [] 0 3 5
        = some ⟨[], some .StayStill, some (5 - 3), 5⟩ ∧ (5 - 3) + 3 = 5) ∧
    playerTurnBody (.ok .StayStill) [] 0 7 5 = none :=
  ⟨(c9_fuel_delta .StayStill [] 0 3 5).1 (by decide),
   (c9_fuel_delta .StayStill [] 0 7 5).2 (by decide)⟩

/-! ## Respawn timing -/

lemma respawn_iter_le (N k : Nat) (h : k ≤ N) :
    player_respawn_iter k (.Respawning N) = .Respawning (N - k) := by
  induction k generalizing N with
  | zero => rfl
  | succ k ih =>
      cases N with
      | zero => omega
      | succ M =>
          show player_respawn_iter k (.Respawning M) = .Respawning (M + 1 - (k + 1))
          rw [ih M (by omega)]
          congr 1
          omega

lemma respawn_iter_done (N : Nat) :
    player_respawn_iter (N + 1) (.Respawning N) = .ReadyToSpawn := by
  induction N with
  | zero => rfl
  | succ M ih => exact ih

/-- Claim C7 counterexample: a handle entering `Respawning(1)` is still
`Respawning(0)` — not `ReadyToSpawn` — after exactly 1 world tick of
the respawn system; it only becomes `ReadyToSpawn` on the second
tick. -/
theorem c7_counterexample :
    player_respawn_iter 1 (.Respawning 1) = .Respawning 0 ∧
    player_respawn_iter 1 (.Respawning 1) ≠ .ReadyToSpawn ∧
    player_respawn_iter 2 (.Respawning 1) = .ReadyToSpawn := by
  decide

/-- Claim C7 (amended): a handle entering `Respawning(N)` becomes
`ReadyToSpawn` after exactly `N + 1` world ticks of the respawn system,
and after any `k ≤ N` ticks it is still `Respawning(N - k)` — never
`ReadyToSpawn` earlier. -/
theorem c7_respawn_timing (N : Nat) :
    player_respawn_iter (N + 1) (.Respawning N) = .ReadyToSpawn ∧
    ∀ k, k ≤ N → player_respawn_iter k (.Respawning N) = .Respawning (N - k) :=
  ⟨respawn_iter_done N, fun k hk => respawn_iter_le N k hk⟩

/-- Claim C7 witness: the amended timing at the source constant
`RESPAWN_TIME = Ticks(3)`. -/
theorem c7_respawn_timing_witness :
    player_respawn_iter (RESPAWN_TIME.val + 1) (.Respawning RESPAWN_TIME.val)
        = .ReadyToSpawn ∧
    player_respawn_iter 3 (.Respawning 3) = .Respawning (3 - 3) :=
  ⟨(c7_respawn_timing 3).1, (c7_respawn_timing 3).2 3 (by decide)⟩

/-! ## Live reload of a changed module -/

/-- Claim C8 counterexample: after an in-place hot-swap whose
display-name query fails, `live_brain_reload_system` leaves the player
name and the handle state untouched — the handle does not transition to
`Misbehaved`, refuting the claim that a post-swap name-query failure
bans the handle. -/
theorem c8_counterexample :
    live_brain_reload (.ok ()) (.error "name query failed") "OldName"
        .ReadyToSpawn
      = .ok ⟨"OldName", .ReadyToSpawn⟩ ∧
    HandleState.isMisbehaved .ReadyToSpawn = false :=
  ⟨rfl, rfl⟩

/-- Claim C8 (amended): a display-name query failure after an in-place
hot-swap is ignored — the swap is kept, the player keeps its previous
name and the handle keeps its previous state — whereas the same failure
during an initial spawn marks the handle `Misbehaved` and aborts the
spawn. -/
theorem c8_reload_name_failure_ignored (err currentName : String)
    (h : HandleState) (ph : PlayerHandle) :
    live_brain_reload (.ok ()) (.error err) currentName h
        = .ok ⟨currentName, h⟩ ∧
    ((spawn_player_name_check (.error err) ph).1.state).isMisbehaved = true ∧
    (spawn_player_name_check (.error err) ph).2 = none :=
  ⟨rfl, rfl, rfl⟩

/-! ## At-most-one-agent invariant -/

lemma pickSpawnCandidate_not_live (s : LifecycleState) (cand : PlayerHandle)
    (hp : pickSpawnCandidate s = some cand) :
    s.agents.count cand.id = 0 := by
  have hpred := List.find?_some hp
  rw [Bool.and_eq_true] at hpred
  have hnc : s.agents.contains cand.id = false := by
    rcases hpred with ⟨_, hx⟩
    simpa using hx
  apply List.count_eq_zero_of_not_mem
  intro hmem
  have htrue : s.agents.contains cand.id = true := by
    rw [List.contains_iff_exists_mem_beq]
    exact ⟨cand.id, hmem, by simp⟩
  rw [htrue] at hnc
  cases hnc

lemma applyChoice_preserves_count (c : LifecycleChoice) (s : LifecycleState)
    (h : ∀ i, s.agents.count i ≤ 1) :
    ∀ i, (applyChoice c s).agents.count i ≤ 1 := by
  intro i
  cases c with
  | spawn avail outcome =>
      show (spawnStep s avail outcome).agents.count i ≤ 1
      unfold spawnStep
      cases hp : pickSpawnCandidate s with
      | none => cases avail <;> exact h i
      | some cand =>
          cases avail with
          | zero => exact h i
          | succ n =>
              cases outcome with
              | compileFail => exact h i
              | nameFail r => exact h i
              | success =>
                  have hzero := pickSpawnCandidate_not_live s cand hp
                  show ((cand.id :: s.agents).count i) ≤ 1
                  rw [List.count_cons]
                  by_cases hi : i = cand.id
                  · subst hi
                    simp [hzero]
                  · simp only [beq_iff_eq]
                    rw [if_neg (fun hh => hi hh.symm)]
                    simpa using h i
  | despawn =>
      exact le_trans (List.Sublist.count_le (List.filter_sublist _) i) (h i)
  | ban =>
      exact le_trans (List.Sublist.count_le (List.filter_sublist _) i) (h i)
  | death v =>
      show (deathStep s v).agents.count i ≤ 1
      unfold deathStep
      by_cases hv : s.agents.contains v
      · rw [if_pos hv]
        exact le_trans (List.Sublist.count_le (List.erase_sublist _ _) i) (h i)
      · rw [if_neg hv]
        exact h i
  | respawnTick => exact h i
  | unban m => exact h i
  | hotswap ids mx => exact h i
  | fault j r => exact h i

lemma applyChoices_preserves_count (cs : List LifecycleChoice)
    (s : LifecycleState) (h : ∀ i, s.agents.count i ≤ 1) :
    ∀ i, (applyChoices cs s).agents.count i ≤ 1 := by
  induction cs generalizing s with
  | nil => exact h
  | cons c cs ih => exact ih _ (applyChoice_preserves_count c s h)

/-- Claim C6: starting from any handle list with no live agents, after
any sequence of spawn, despawn, ban, death, respawn, unban, hotswap and
fault steps, the number of live agents tagged with a given handle id is
0 or 1, never more; moreover the spawn step only ever selects a handle
with no currently live agent. -/
theorem c6_at_most_one_agent :
    (∀ (handles0 : List PlayerHandle) (cs : List LifecycleChoice) (id : Nat),
      agentCount (applyChoices cs ⟨handles0, []⟩) id ≤ 1) ∧
    (∀ s : LifecycleState,
      match pickSpawnCandidate s with
      | some cand => agentCount s cand.id = 0
      | none => True) := by
  constructor
  · intro handles0 cs id
    exact applyChoices_preserves_count cs ⟨handles0, []⟩ (fun i => by simp) id
  · intro s
    cases hp : pickSpawnCandidate s with
    | none => trivial
    | some cand => exact pickSpawnCandidate_not_live s cand hp

/-! ## Bounded world view -/

/-- Claim C10: the surroundings passed to the decision call contain
exactly the tuples `(tile, object-on-tile, offset)` for tiles whose
offset from the player location has taxicab distance at most the vision
radius, the object slot being the first object at that tile location if
any. The constructed view carries no rival-summary component at all, so
in particular it never lists the calling agent as a rival. -/
theorem c10_surroundings_characterization
    (tiles : List (TileLocation × Tile))
    (objects : List (TileLocation × Object))
    (pl : TileLocation) (t : Tile) (ob : Option Object) (off : TileOffset) :
    (t, ob, off) ∈ wasm_player_surroundings tiles objects pl ↔
      (off.taxicab_distance ≤ PLAYER_VIEW_TAXICAB_DISTANCE ∧
       ∃ l, (l, t) ∈ tiles ∧ off = l.sub pl ∧
         ob = (objects.find? fun lo => lo.1 = l).map (·.2)) := by
  rw [wasm_player_surroundings, List.mem_filterMap]
  constructor
  · rintro ⟨⟨l, t0⟩, hmem, hf⟩
    dsimp at hf
    by_cases hd : (TileLocation.sub l pl).taxicab_distance
        ≤ PLAYER_VIEW_TAXICAB_DISTANCE
    · rw [if_pos hd] at hf
      simp only [Option.some.injEq, Prod.mk.injEq] at hf
      obtain ⟨ht, hob, hoff⟩ := hf
      subst ht
      exact ⟨hoff ▸ hd, l, hmem, hoff.symm, hob.symm⟩
    · rw [if_neg hd] at hf
      simp at hf
  · rintro ⟨hdist, l, hmem, hoff, hob⟩
    subst hoff
    subst hob
    refine ⟨(l, t), hmem, ?_⟩
    dsimp
    rw [if_pos hdist]

end Bomberman
